import Mathlib

/-!
Shallow embedding of the PSoC event-logging firmware core
(25LC256 EEPROM log store, log codec, IMU history buffer, mode
state machine and its UART remote-command handler), together with
proofs settling the specification claims.

The EEPROM is modelled as a map from (16-bit) addresses to byte
values; all arithmetic on addresses is `Nat` with explicit `% 2^16`
where the C code computes in `uint16_t`, and byte values are reduced
`% 256` at every read/write, matching `uint8_t`.
-/

/-- EEPROM memory: a map from addresses to stored byte values. -/
abbrev Mem : Type := Nat → Nat

/- Constants from 25LC256.h. -/

def SPI_EEPROM_PAGE_SIZE : Nat := 64

def SPI_EEPROM_PAGE_COUNT : Nat := 512

def SPI_EEPROM_SIZE_BYTE : Nat := 0x7FFF

def CTRL_REG_PSOC_STATUS : Nat := 0x0000

def CTRL_REG_LOG_PAGES_LOW : Nat := 0x0008

def CTRL_REG_LOG_PAGES_HIGH : Nat := 0x0016

def LOG_DATA_BASE_ADDR : Nat := 0x0040

def LOG_PAGES_PER_EVENT : Nat := 5

def CTRL_REG_PSOC_START_STOP_SHIFT : Nat := 0

def CTRL_REG_PSOC_CONFIG_MODE_SHIFT : Nat := 1

def CTRL_REG_PSOC_SEND_FLAG_SHIFT : Nat := 2

def CTRL_REG_PSOC_RESET_FLAG_SHIFT : Nat := 3

def CTRL_REG_PSOC_SET_START : Nat := 1 <<< CTRL_REG_PSOC_START_STOP_SHIFT

def CTRL_REG_PSOC_SET_CONFIG : Nat := 1 <<< CTRL_REG_PSOC_CONFIG_MODE_SHIFT

def CTRL_REG_PSOC_SET_SEND_FLAG : Nat := 1 <<< CTRL_REG_PSOC_SEND_FLAG_SHIFT

def CTRL_REG_PSOC_SET_RESET_FLAG : Nat := 1 <<< CTRL_REG_PSOC_RESET_FLAG_SHIFT

/- Constants from LogUtils.h. -/

def LOG_MESSAGE_HEADER_BYTE : Nat := 4

def LOG_MESSAGE_DATA_BYTE : Nat := 60

def LOG_MESSAGE_TOT_BYTE : Nat := 64

/- Constants from LIS3DH.h. -/

/-- `EEPROM_readByte` (25LC256.c): read one byte from an address. -/
def EEPROM_readByte (mem : Mem) (addr : Nat) : Nat := mem addr % 256

/-- `EEPROM_writeByte` (25LC256.c): write one byte to an address. -/
def EEPROM_writeByte (mem : Mem) (addr dataByte : Nat) : Mem :=
  fun a => if a = addr then dataByte % 256 else a |> mem

/-- `EEPROM_writePage` (25LC256.c): write a buffer of bytes starting at an
address, one byte per successive address.  Every call site in the firmware
passes either a page-aligned address or an in-page range, so the 25LC256
within-page address wrap documented for this instruction never occurs and is
not modelled. -/
def EEPROM_writePage (mem : Mem) (addr : Nat) : List Nat → Mem
  | [] => mem
  | b :: rest => EEPROM_writePage (EEPROM_writeByte mem addr b) (addr + 1) rest

/-- `EEPROM_readPage` (25LC256.c): read `nBytes` successive bytes starting at
an address (addresses taken modulo the 16-bit address register). -/
def EEPROM_readPage (mem : Mem) (addr nBytes : Nat) : List Nat :=
  (List.range nBytes).map fun k => EEPROM_readByte mem ((addr + k) % 65536)

/-- `EEPROM_saveResetFlag` (25LC256.c): read-modify-write of the reset bit
(bit 3) of the control byte.  The C complement `~mask` on a `uint8_t` value
is `255 ^^^ mask`. -/
def EEPROM_saveResetFlag (mem : Mem) (flag : Nat) : Mem :=
  let ctrl_reg := EEPROM_readByte mem CTRL_REG_PSOC_STATUS
  let ctrl_reg :=
    if flag = 1 then ctrl_reg ||| CTRL_REG_PSOC_SET_RESET_FLAG
    else ctrl_reg &&& (255 ^^^ CTRL_REG_PSOC_SET_RESET_FLAG)
  EEPROM_writeByte mem CTRL_REG_PSOC_STATUS ctrl_reg

/-- `EEPROM_retrieveResetFlag` (25LC256.c). -/
def EEPROM_retrieveResetFlag (mem : Mem) : Nat :=
  let ctrl_reg := EEPROM_readByte mem CTRL_REG_PSOC_STATUS
  let ctrl_reg := ctrl_reg &&& CTRL_REG_PSOC_SET_RESET_FLAG
  (ctrl_reg >>> CTRL_REG_PSOC_RESET_FLAG_SHIFT) &&& 0x01

/-- `EEPROM_saveStartStopState` (25LC256.c): read-modify-write of the
start/stop bit (bit 0), then clear the reset bit if it was set in the value
just written. -/
def EEPROM_saveStartStopState (mem : Mem) (state : Nat) : Mem :=
  let ctrl_reg := EEPROM_readByte mem CTRL_REG_PSOC_STATUS
  let ctrl_reg :=
    if state = 1 then ctrl_reg ||| CTRL_REG_PSOC_SET_START
    else ctrl_reg &&& (255 ^^^ CTRL_REG_PSOC_SET_START)
  let mem1 := EEPROM_writeByte mem CTRL_REG_PSOC_STATUS ctrl_reg
  if ctrl_reg &&& CTRL_REG_PSOC_SET_RESET_FLAG ≠ 0 then EEPROM_saveResetFlag mem1 0
  else mem1

/-- `EEPROM_retrieveStartStopState` (25LC256.c). -/
def EEPROM_retrieveStartStopState (mem : Mem) : Nat :=
  let ctrl_reg := EEPROM_readByte mem CTRL_REG_PSOC_STATUS
  let ctrl_reg := ctrl_reg &&& CTRL_REG_PSOC_SET_START
  (ctrl_reg >>> CTRL_REG_PSOC_START_STOP_SHIFT) &&& 0x01

/-- `EEPROM_saveConfigFlag` (25LC256.c): read-modify-write of the
config-active bit (bit 1), then clear the reset bit if set. -/
def EEPROM_saveConfigFlag (mem : Mem) (flag : Nat) : Mem :=
  let ctrl_reg := EEPROM_readByte mem CTRL_REG_PSOC_STATUS
  let ctrl_reg :=
    if flag = 1 then ctrl_reg ||| CTRL_REG_PSOC_SET_CONFIG
    else ctrl_reg &&& (255 ^^^ CTRL_REG_PSOC_SET_CONFIG)
  let mem1 := EEPROM_writeByte mem CTRL_REG_PSOC_STATUS ctrl_reg
  if ctrl_reg &&& CTRL_REG_PSOC_SET_RESET_FLAG ≠ 0 then EEPROM_saveResetFlag mem1 0
  else mem1

/-- `EEPROM_retrieveConfigFlag` (25LC256.c). -/
def EEPROM_retrieveConfigFlag (mem : Mem) : Nat :=
  let ctrl_reg := EEPROM_readByte mem CTRL_REG_PSOC_STATUS
  let ctrl_reg := ctrl_reg &&& CTRL_REG_PSOC_SET_CONFIG
  (ctrl_reg >>> CTRL_REG_PSOC_CONFIG_MODE_SHIFT) &&& 0x01

/-- `EEPROM_saveSendFlag` (25LC256.c): read-modify-write of the verbose-send
bit (bit 2), then clear the reset bit if set. -/
def EEPROM_saveSendFlag (mem : Mem) (flag : Nat) : Mem :=
  let ctrl_reg := EEPROM_readByte mem CTRL_REG_PSOC_STATUS
  let ctrl_reg :=
    if flag = 1 then ctrl_reg ||| CTRL_REG_PSOC_SET_SEND_FLAG
    else ctrl_reg &&& (255 ^^^ CTRL_REG_PSOC_SET_SEND_FLAG)
  let mem1 := EEPROM_writeByte mem CTRL_REG_PSOC_STATUS ctrl_reg
  if ctrl_reg &&& CTRL_REG_PSOC_SET_RESET_FLAG ≠ 0 then EEPROM_saveResetFlag mem1 0
  else mem1

/-- `EEPROM_retrieveSendFlag` (25LC256.c). -/
def EEPROM_retrieveSendFlag (mem : Mem) : Nat :=
  let ctrl_reg := EEPROM_readByte mem CTRL_REG_PSOC_STATUS
  let ctrl_reg := ctrl_reg &&& CTRL_REG_PSOC_SET_SEND_FLAG
  (ctrl_reg >>> CTRL_REG_PSOC_SEND_FLAG_SHIFT) &&& 0x01

/-- `EEPROM_retrieveLogPages` (25LC256.c): the page-counter read-back,
high byte from address `CTRL_REG_LOG_PAGES_HIGH` (0x0016), low byte from
`CTRL_REG_LOG_PAGES_LOW` (0x0008). -/
def EEPROM_retrieveLogPages (mem : Mem) : Nat :=
  let reg_count := (EEPROM_readByte mem CTRL_REG_LOG_PAGES_HIGH) <<< 8
  reg_count ||| EEPROM_readByte mem CTRL_REG_LOG_PAGES_LOW

/-- `EEPROM_retrieveLogCount` (25LC256.c): the page counter divided by 5,
truncated to a `uint8_t` by the C cast. -/
def EEPROM_retrieveLogCount (mem : Mem) : Nat :=
  (EEPROM_retrieveLogPages mem / LOG_PAGES_PER_EVENT) % 256

/-- `EEPROM_incrementLogCounter` (25LC256.c): when the read-back counter is
below 512, write the two bytes of `counter + 1` at successive addresses
0x0008 and 0x0009 (a 2-byte page write starting at `CTRL_REG_LOG_PAGES_LOW`). -/
def EEPROM_incrementLogCounter (mem : Mem) : Mem :=
  let reg_count := EEPROM_retrieveLogPages mem
  if reg_count < SPI_EEPROM_PAGE_COUNT then
    let reg_count := reg_count + 1
    EEPROM_writePage mem CTRL_REG_LOG_PAGES_LOW
      [reg_count &&& 0x00FF, (reg_count >>> 8) &&& 0x00FF]
  else mem

/-- `EEPROM_storeLogData` (25LC256.c): write one 64-byte page at the first
free address `base + pageCount * pageSize` (computed in `uint16_t`), skipped
when that address exceeds `SPI_EEPROM_SIZE_BYTE - SPI_EEPROM_PAGE_SIZE`. -/
def EEPROM_storeLogData (mem : Mem) (dataPtr : List Nat) : Mem :=
  let page_count := EEPROM_retrieveLogPages mem
  let page_addr := (LOG_DATA_BASE_ADDR + page_count * SPI_EEPROM_PAGE_SIZE) % 65536
  if page_addr ≤ SPI_EEPROM_SIZE_BYTE - SPI_EEPROM_PAGE_SIZE then
    EEPROM_writePage mem page_addr dataPtr
  else mem

/-- `log_t` (LogUtils.h). -/
structure log_t where
  logID : Nat
  intReg : Nat
  timestamp : Nat
  data : List Nat

/-- `LOG_createMessage` (LogUtils.c): build a log message; the payload copy
(`LOG_insertPayload`) transfers exactly 60 bytes. -/
def LOG_createMessage (logID intReg time : Nat) (dataPtr : List Nat) : log_t :=
  { logID := logID, intReg := intReg, timestamp := time,
    data := dataPtr.take LOG_MESSAGE_DATA_BYTE }

/-- `LOG_unpackMessage` (LogUtils.c): serialize a log message to a 64-byte
buffer: identifier, interrupt register, timestamp low byte, timestamp high
byte, then the 60 payload bytes verbatim. -/
def LOG_unpackMessage (message : log_t) : List Nat :=
  [message.logID, message.intReg, message.timestamp &&& 0xFF,
   (message.timestamp >>> 8) &&& 0xFF] ++ message.data.take LOG_MESSAGE_DATA_BYTE

/-- `LOG_packMessage` (LogUtils.c): deserialize a 64-byte buffer into a log
message, timestamp reassembled as `(buffer[3] <<< 8) ||| buffer[2]`. -/
def LOG_packMessage (buffer : List Nat) : log_t :=
  { logID := buffer.getD 0 0,
    intReg := buffer.getD 1 0,
    timestamp := ((buffer.getD 3 0) <<< 8) ||| buffer.getD 2 0,
    data := (buffer.drop LOG_MESSAGE_HEADER_BYTE).take LOG_MESSAGE_DATA_BYTE }

/-- `EEPROM_storeLogMessage` (25LC256.c): serialize, store one page, then
increment the page counter. -/
def EEPROM_storeLogMessage (mem : Mem) (message : log_t) : Mem :=
  let buffer := LOG_unpackMessage message
  let mem := EEPROM_storeLogData mem buffer
  EEPROM_incrementLogCounter mem

/-- Scan loop of `EEPROM_findLogID` (25LC256.c).  The C `while` loop reads the
header byte at `addrPtr`; on mismatch it advances by one page and returns the
sentinel 0xFFFF as soon as the next address reaches `SPI_EEPROM_SIZE_BYTE`.
The loop visits at most 511 header addresses (0x0040, 0x0080, ..., 0x7FC0),
so a structural fuel of 512 is never exhausted when the scan starts at
`LOG_DATA_BASE_ADDR`. -/
def EEPROM_findLogIDScan (mem : Mem) (logID : Nat) : Nat → Nat → Nat
  | _, 0 => 0xFFFF
  | addrPtr, fuel + 1 =>
    if EEPROM_readByte mem addrPtr ≠ logID then
      if SPI_EEPROM_SIZE_BYTE ≤ addrPtr + SPI_EEPROM_PAGE_SIZE then 0xFFFF
      else EEPROM_findLogIDScan mem logID (addrPtr + SPI_EEPROM_PAGE_SIZE) fuel
    else addrPtr

/-- `EEPROM_findLogID` (25LC256.c): linear forward scan of page headers from
`LOG_DATA_BASE_ADDR`, returning the first address whose header byte equals
`logID`, or 0xFFFF. -/
def EEPROM_findLogID (mem : Mem) (logID : Nat) : Nat :=
  EEPROM_findLogIDScan mem logID LOG_DATA_BASE_ADDR 512

/-- `EEPROM_retrieveLogData` (25LC256.c): read the 64-byte page at
`findLogID(logID) + pageIndex * pageSize` (computed in `uint16_t`). -/
def EEPROM_retrieveLogData (mem : Mem) (logID pageIndex : Nat) : List Nat :=
  let page_addr := (EEPROM_findLogID mem logID + pageIndex * SPI_EEPROM_PAGE_SIZE) % 65536
  EEPROM_readPage mem page_addr SPI_EEPROM_PAGE_SIZE

/-- `EEPROM_retrieveLogMessage` (25LC256.c). -/
def EEPROM_retrieveLogMessage (mem : Mem) (logID pageIndex : Nat) : log_t :=
  LOG_packMessage (EEPROM_retrieveLogData mem logID pageIndex)

/-- `EEPROM_resetMemory` (25LC256.c): the loop `for (i = 1; i < 512; i++)`
performs 511 page writes of zeros at addresses 0, 64, ..., 510*64 (pages 0
through 510), then sets the reset flag. -/
def EEPROM_resetMemory (mem : Mem) : Mem :=
  let resetBuffer := List.replicate SPI_EEPROM_PAGE_SIZE 0
  let mem := (List.range (SPI_EEPROM_PAGE_COUNT - 1)).foldl
    (fun m i => EEPROM_writePage m (i * SPI_EEPROM_PAGE_SIZE) resetBuffer) mem
  EEPROM_saveResetFlag mem 1

/-- `IMU_getPayload` (LIS3DH.c): one 60-byte page slice of the queue; the
fifth page is the first 48 queue bytes padded with 12 zero bytes. -/
def IMU_getPayload (queue : List Nat) (index : Nat) : List Nat :=
  let index := index + 1
  if index = 5 then queue.take 48 ++ List.replicate 12 0
  else (queue.drop (288 - index * 60)).take 60

/- Mode state machine (InterruptRoutines.h / InterruptRoutines.c). -/

def STOP_MODE : Nat := 0

def START_MODE : Nat := 1

def CONFIG_MODE : Nat := 2

/-- The firmware state the config ISR touches: the `button_state` and
`send_flag` globals, whether IMU acquisition is running (`IMU_Start` /
`IMU_Stop` register state), and the EEPROM contents. -/
structure SysState where
  button_state : Nat
  send_flag : Nat
  imu_active : Bool
  eeprom : Mem

/-- `CUSTOM_ISR_CONFIG` (InterruptRoutines.c): long-press handler.  Outside
CONFIG: stop the IMU if running in START, enter CONFIG, persist
config-active = 1.  In CONFIG: resume the mode read back from the persisted
start/stop bit, persist config-active = 0, restart the IMU when resuming
START, and persist the send flag. -/
def CUSTOM_ISR_CONFIG (st : SysState) : SysState :=
  if st.button_state ≠ CONFIG_MODE then
    let imu := if st.button_state = START_MODE then false else st.imu_active
    { st with button_state := CONFIG_MODE, imu_active := imu,
              eeprom := EEPROM_saveConfigFlag st.eeprom 1 }
  else
    let b := EEPROM_retrieveStartStopState st.eeprom
    let mem := EEPROM_saveConfigFlag st.eeprom 0
    let imu := if b = START_MODE then true else st.imu_active
    let mem := EEPROM_saveSendFlag mem st.send_flag
    { st with button_state := b, imu_active := imu, eeprom := mem }

/-- `LOG_sendData` (LogUtils.c): the bytes put on the UART for one log
message are its serialized 64-byte buffer. -/
def LOG_sendData (message : log_t) : List Nat := LOG_unpackMessage message

/-- The `UART_RX_SEND_LOG_ID` branch of `CUSTOM_ISR_RX`
(InterruptRoutines.c): for each of the 5 page indices, retrieve the page
for the requested identifier and transmit it; the returned list is the full
byte stream sent over the UART. -/
def CUSTOM_ISR_RX_sendLogID (mem : Mem) (log_id : Nat) : List Nat :=
  (List.range LOG_PAGES_PER_EVENT).foldl
    (fun out i => out ++ LOG_sendData (EEPROM_retrieveLogMessage mem log_id i)) []

/-- The over-threshold branch of the main loop (main.c): take the current
log count as identifier, then store the 5 pages sliced from the IMU queue. -/
def mainOverThresholdEvent (mem : Mem) (int_reg timestamp : Nat)
    (queue : List Nat) : Mem :=
  let log_id := EEPROM_retrieveLogCount mem
  (List.range LOG_PAGES_PER_EVENT).foldl
    (fun m i =>
      EEPROM_storeLogMessage m
        (LOG_createMessage log_id int_reg timestamp (IMU_getPayload queue i))) mem

/-- Iterate the over-threshold event handler `n` times (n successful calls
of the append operation). -/
def runOverThresholdEvents (mem : Mem) (int_reg timestamp : Nat)
    (queue : List Nat) : Nat → Mem
  | 0 => mem
  | n + 1 =>
    mainOverThresholdEvent (runOverThresholdEvents mem int_reg timestamp queue n)
      int_reg timestamp queue

/-- The all-zero (fully erased) EEPROM state. -/
def zeroMem : Mem := fun _ => 0

/-! ## Infrastructure lemmas -/

theorem EEPROM_readByte_lt (mem : Mem) (addr : Nat) : EEPROM_readByte mem addr < 256 :=
  Nat.mod_lt _ (by omega)

theorem EEPROM_readByte_writeByte (mem : Mem) (addr v x : Nat) :
    EEPROM_readByte (EEPROM_writeByte mem addr v) x =
      if x = addr then v % 256 else EEPROM_readByte mem x := by
  unfold EEPROM_readByte EEPROM_writeByte
  split <;> simp [Nat.mod_mod_of_dvd]

theorem EEPROM_readByte_writePage (l : List Nat) (mem : Mem) (addr x : Nat) :
    EEPROM_readByte (EEPROM_writePage mem addr l) x =
      if addr ≤ x ∧ x < addr + l.length then l.getD (x - addr) 0 % 256
      else EEPROM_readByte mem x := by
  induction l generalizing mem addr with
  | nil =>
    rw [EEPROM_writePage]
    simp only [List.length_nil]
    rw [if_neg (by omega)]
  | cons b rest ih =>
    rw [EEPROM_writePage, ih, EEPROM_readByte_writeByte]
    have hlen : (b :: rest).length = rest.length + 1 := List.length_cons b rest
    rcases Nat.lt_trichotomy x addr with h | h | h
    · rw [if_neg (by omega), if_neg (by omega), if_neg (by omega)]
    · subst h
      rw [if_neg (by omega), if_pos rfl, if_pos (by omega)]
      simp
    · by_cases hx : x < addr + (b :: rest).length
      · rw [if_pos (by omega), if_pos (by omega)]
        have hxs : x - addr = (x - (addr + 1)) + 1 := by omega
        simp [hxs]
      · rw [if_neg (by omega), if_neg (by omega), if_neg (by omega)]

theorem EEPROM_readByte_writePage_lt (l : List Nat) (mem : Mem) (addr x : Nat)
    (h : x < addr) :
    EEPROM_readByte (EEPROM_writePage mem addr l) x = EEPROM_readByte mem x := by
  rw [EEPROM_readByte_writePage, if_neg (by omega)]

theorem EEPROM_readByte_writePage_ge (l : List Nat) (mem : Mem) (addr x : Nat)
    (h : addr + l.length ≤ x) :
    EEPROM_readByte (EEPROM_writePage mem addr l) x = EEPROM_readByte mem x := by
  rw [EEPROM_readByte_writePage, if_neg (by omega)]

theorem and_255_eq_mod (x : Nat) : x &&& 255 = x % 256 := by
  have h := Nat.and_pow_two_sub_one_eq_mod x 8
  norm_num at h
  exact h

theorem shiftRight8_eq_div (x : Nat) : x >>> 8 = x / 256 := by
  have h := Nat.shiftRight_eq_div_pow x 8
  norm_num at h
  exact h

theorem shiftLeft8_or_eq_add (a b : Nat) (h : b < 256) : (a <<< 8) ||| b = 256 * a + b := by
  have h2 : b < 2 ^ 8 := by norm_num [h]
  have h3 := Nat.mul_add_lt_is_or h2 a
  rw [Nat.shiftLeft_eq, Nat.mul_comm, ← h3]


/-! ## C10: identifier 0 on an erased store -/

/-- C10: identifier 0 is indistinguishable from erased pages at the lookup
interface: when every byte of the log-data region reads zero, `findById(0)`
returns the address of the first log-data page, not the NOT_FOUND sentinel,
even though no log with identifier 0 was ever appended. -/
theorem C10_findById_zero_on_erased_store (mem : Mem)
    (h : ∀ a, LOG_DATA_BASE_ADDR ≤ a → EEPROM_readByte mem a = 0) :
    EEPROM_findLogID mem 0 = LOG_DATA_BASE_ADDR ∧ EEPROM_findLogID mem 0 ≠ 0xFFFF := by
  have h64 : EEPROM_readByte mem 64 = 0 := h 64 (by norm_num [LOG_DATA_BASE_ADDR])
  have hfind : EEPROM_findLogID mem 0 = 64 := by
    show EEPROM_findLogIDScan mem 0 LOG_DATA_BASE_ADDR (511 + 1) = 64
    rw [EEPROM_findLogIDScan]
    norm_num [LOG_DATA_BASE_ADDR, h64]
  rw [hfind]
  norm_num [LOG_DATA_BASE_ADDR]

/-- Witness for C10 at the all-zero store. -/
theorem C10_witness :
    EEPROM_findLogID zeroMem 0 = LOG_DATA_BASE_ADDR ∧
      EEPROM_findLogID zeroMem 0 ≠ 0xFFFF :=
  C10_findById_zero_on_erased_store zeroMem (fun _ _ => rfl)

/-! ## C6: log codec round trip -/

/-- C6: codec round trip.  `LOG_unpackMessage` lays out the 64-byte page as
identifier, event register, timestamp low byte, timestamp high byte, then the
60-byte payload verbatim, and `LOG_packMessage` reconstructs the timestamp as
little-endian 16-bit; for every well-formed record (16-bit timestamp, 60-byte
payload) decoding the encoding gives back the record. -/
theorem C6_codec_round_trip (r : log_t) (hts : r.timestamp < 65536)
    (hd : r.data.length = LOG_MESSAGE_DATA_BYTE) :
    LOG_packMessage (LOG_unpackMessage r) = r := by
  obtain ⟨id, ir, ts, d⟩ := r
  have hts2 : ts < 65536 := hts
  have hd2 : d.length = 60 := hd
  have hdt : d.take 60 = d := List.take_of_length_le (by omega)
  unfold LOG_unpackMessage LOG_packMessage
  simp only [LOG_MESSAGE_HEADER_BYTE, LOG_MESSAGE_DATA_BYTE, List.cons_append,
    List.nil_append, List.getD_cons_zero, List.getD_cons_succ, List.drop_succ_cons,
    List.drop_zero, log_t.mk.injEq]
  refine ⟨trivial, trivial, ?_, by rw [hdt, hdt]⟩
  rw [and_255_eq_mod, and_255_eq_mod, shiftRight8_eq_div]
  have hlt : ts / 256 < 256 := Nat.div_lt_of_lt_mul (by omega)
  rw [Nat.mod_eq_of_lt hlt, shiftLeft8_or_eq_add _ _ (Nat.mod_lt _ (by omega))]
  omega

/-- Witness for C6 at a concrete record. -/
theorem C6_witness :
    (4660 < 65536 ∧ (List.replicate 60 7).length = LOG_MESSAGE_DATA_BYTE) ∧
      LOG_packMessage
          (LOG_unpackMessage { logID := 3, intReg := 5, timestamp := 4660,
                               data := List.replicate 60 7 }) =
        { logID := 3, intReg := 5, timestamp := 4660, data := List.replicate 60 7 } :=
  ⟨⟨by norm_num, by simp [LOG_MESSAGE_DATA_BYTE]⟩,
   C6_codec_round_trip _ (by norm_num) (by simp [LOG_MESSAGE_DATA_BYTE])⟩

/-! ## Control-byte lemmas for the persisted mode flags -/

set_option maxRecDepth 10000 in
theorem retrieveStartStop_after_save (mem : Mem) (s : Nat) (hs : s ≤ 1) :
    EEPROM_retrieveStartStopState (EEPROM_saveStartStopState mem s) = s := by
  have hc : EEPROM_readByte mem 0 < 256 := EEPROM_readByte_lt mem 0
  rcases Nat.le_one_iff_eq_zero_or_eq_one.mp hs with h | h <;> subst h <;>
  · simp only [EEPROM_saveStartStopState, EEPROM_saveResetFlag,
      EEPROM_retrieveStartStopState, CTRL_REG_PSOC_STATUS, CTRL_REG_PSOC_SET_START,
      CTRL_REG_PSOC_SET_RESET_FLAG, CTRL_REG_PSOC_START_STOP_SHIFT,
      CTRL_REG_PSOC_RESET_FLAG_SHIFT, EEPROM_readByte_writeByte,
      apply_ite (fun m : Mem => EEPROM_readByte m 0)]
    revert hc
    generalize EEPROM_readByte mem 0 = c
    revert c
    decide

set_option maxRecDepth 10000 in
theorem retrieveStartStop_after_saveConfigFlag (mem : Mem) (f : Nat) :
    EEPROM_retrieveStartStopState (EEPROM_saveConfigFlag mem f) =
      EEPROM_retrieveStartStopState mem := by
  have hc : EEPROM_readByte mem 0 < 256 := EEPROM_readByte_lt mem 0
  by_cases hf : f = 1 <;>
  · simp only [EEPROM_saveConfigFlag, EEPROM_saveResetFlag,
      EEPROM_retrieveStartStopState, CTRL_REG_PSOC_STATUS, CTRL_REG_PSOC_SET_START,
      CTRL_REG_PSOC_SET_CONFIG, CTRL_REG_PSOC_SET_RESET_FLAG,
      CTRL_REG_PSOC_START_STOP_SHIFT, CTRL_REG_PSOC_RESET_FLAG_SHIFT,
      EEPROM_readByte_writeByte, apply_ite (fun m : Mem => EEPROM_readByte m 0), hf,
      if_true, if_false]
    revert hc
    generalize EEPROM_readByte mem 0 = c
    revert c
    decide

set_option maxRecDepth 10000 in
theorem retrieveConfigFlag_after_saveConfigFlag_one (mem : Mem) :
    EEPROM_retrieveConfigFlag (EEPROM_saveConfigFlag mem 1) = 1 := by
  have hc : EEPROM_readByte mem 0 < 256 := EEPROM_readByte_lt mem 0
  simp only [EEPROM_saveConfigFlag, EEPROM_saveResetFlag, EEPROM_retrieveConfigFlag,
    CTRL_REG_PSOC_STATUS, CTRL_REG_PSOC_SET_CONFIG, CTRL_REG_PSOC_SET_RESET_FLAG,
    CTRL_REG_PSOC_CONFIG_MODE_SHIFT, CTRL_REG_PSOC_RESET_FLAG_SHIFT,
    EEPROM_readByte_writeByte, apply_ite (fun m : Mem => EEPROM_readByte m 0)]
  revert hc
  generalize EEPROM_readByte mem 0 = c
  revert c
  decide

set_option maxRecDepth 10000 in
theorem retrieveConfigFlag_after_sendSave_configZero (mem : Mem) (f : Nat) :
    EEPROM_retrieveConfigFlag (EEPROM_saveSendFlag (EEPROM_saveConfigFlag mem 0) f) = 0 := by
  have hc : EEPROM_readByte mem 0 < 256 := EEPROM_readByte_lt mem 0
  by_cases hf : f = 1 <;>
  · simp only [EEPROM_saveConfigFlag, EEPROM_saveSendFlag, EEPROM_saveResetFlag,
      EEPROM_retrieveConfigFlag, CTRL_REG_PSOC_STATUS, CTRL_REG_PSOC_SET_CONFIG,
      CTRL_REG_PSOC_SET_SEND_FLAG, CTRL_REG_PSOC_SET_RESET_FLAG,
      CTRL_REG_PSOC_CONFIG_MODE_SHIFT, CTRL_REG_PSOC_RESET_FLAG_SHIFT,
      EEPROM_readByte_writeByte, apply_ite (fun m : Mem => EEPROM_readByte m 0), hf,
      if_true, if_false]
    revert hc
    generalize EEPROM_readByte mem 0 = c
    revert c
    decide

/-! ## C1: power-cycle persistence of the mode -/

/-- C1: for every persisted start/stop flag value, reading the mode back from
the persisted control byte (which is how the firmware reconstructs the active
mode, cf. the CONFIG-exit path) reproduces the state that was last persisted,
also after the config-active flag is rewritten in between, and the resumed
state is never CONFIG. -/
theorem C1_mode_persistence (mem : Mem) (s : Nat) (hs : s ≤ 1) :
    EEPROM_retrieveStartStopState (EEPROM_saveStartStopState mem s) = s ∧
    (∀ f, EEPROM_retrieveStartStopState
        (EEPROM_saveConfigFlag (EEPROM_saveStartStopState mem s) f) = s) ∧
    EEPROM_retrieveStartStopState (EEPROM_saveStartStopState mem s) ≠ CONFIG_MODE := by
  have h1 := retrieveStartStop_after_save mem s hs
  refine ⟨h1, fun f => by rw [retrieveStartStop_after_saveConfigFlag, h1], ?_⟩
  rw [h1]
  simp only [CONFIG_MODE]
  omega

/-- Witness for C1: persist the start flag into the all-zero store and read
it back. -/
theorem C1_witness :
    (1 : Nat) ≤ 1 ∧
    EEPROM_retrieveStartStopState (EEPROM_saveStartStopState zeroMem 1) = 1 ∧
    EEPROM_retrieveStartStopState
        (EEPROM_saveConfigFlag (EEPROM_saveStartStopState zeroMem 1) 1) = 1 ∧
    EEPROM_retrieveStartStopState (EEPROM_saveStartStopState zeroMem 1) ≠ CONFIG_MODE :=
  ⟨Nat.le_refl 1, (C1_mode_persistence zeroMem 1 (by decide)).1,
   (C1_mode_persistence zeroMem 1 (by decide)).2.1 1,
   (C1_mode_persistence zeroMem 1 (by decide)).2.2⟩

/-! ## C8: CONFIG round-trip transition -/

/-- C8: a controller in STOP whose persisted start/stop mirror reads stop
moves on a long-press to CONFIG with acquisition disabled and the persisted
config-active flag set to 1; a second long-press returns it to STOP (not
START), the resumed mode being read back from the persisted start/stop
mirror, with config-active set back to 0. -/
theorem C8_config_round_trip (st : SysState) (hb : st.button_state = STOP_MODE)
    (himu : st.imu_active = false)
    (hss : EEPROM_retrieveStartStopState st.eeprom = STOP_MODE) :
    (CUSTOM_ISR_CONFIG st).button_state = CONFIG_MODE ∧
    (CUSTOM_ISR_CONFIG st).imu_active = false ∧
    EEPROM_retrieveConfigFlag (CUSTOM_ISR_CONFIG st).eeprom = 1 ∧
    (CUSTOM_ISR_CONFIG (CUSTOM_ISR_CONFIG st)).button_state = STOP_MODE ∧
    (CUSTOM_ISR_CONFIG (CUSTOM_ISR_CONFIG st)).button_state ≠ START_MODE ∧
    (CUSTOM_ISR_CONFIG (CUSTOM_ISR_CONFIG st)).imu_active = false ∧
    EEPROM_retrieveConfigFlag (CUSTOM_ISR_CONFIG (CUSTOM_ISR_CONFIG st)).eeprom = 0 := by
  obtain ⟨b0, f0, i0, m0⟩ := st
  have hb' : b0 = STOP_MODE := hb
  have hi' : i0 = false := himu
  have hss' : EEPROM_retrieveStartStopState m0 = STOP_MODE := hss
  subst hb' hi'
  have h1 : EEPROM_retrieveStartStopState (EEPROM_saveConfigFlag m0 1) = STOP_MODE := by
    rw [retrieveStartStop_after_saveConfigFlag, hss']
  simp only [CUSTOM_ISR_CONFIG, STOP_MODE, START_MODE, CONFIG_MODE] at h1 ⊢
  norm_num [h1, retrieveConfigFlag_after_saveConfigFlag_one,
    retrieveConfigFlag_after_sendSave_configZero]

/-- Witness for C8 starting from STOP over the all-zero store. -/
theorem C8_witness :
    ((⟨STOP_MODE, 0, false, zeroMem⟩ : SysState)).button_state = STOP_MODE ∧
    EEPROM_retrieveStartStopState zeroMem = STOP_MODE ∧
    (CUSTOM_ISR_CONFIG (⟨STOP_MODE, 0, false, zeroMem⟩ : SysState)).button_state
        = CONFIG_MODE ∧
    (CUSTOM_ISR_CONFIG (CUSTOM_ISR_CONFIG
        (⟨STOP_MODE, 0, false, zeroMem⟩ : SysState))).button_state = STOP_MODE :=
  ⟨rfl, by decide,
   (C8_config_round_trip _ rfl rfl (by decide)).1,
   (C8_config_round_trip _ rfl rfl (by decide)).2.2.2.1⟩

/-! ## Page-counter and store-effect lemmas -/

theorem retrieveLogPages_eq (mem : Mem) :
    EEPROM_retrieveLogPages mem = 256 * EEPROM_readByte mem 22 + EEPROM_readByte mem 8 := by
  unfold EEPROM_retrieveLogPages
  simp only [CTRL_REG_LOG_PAGES_HIGH, CTRL_REG_LOG_PAGES_LOW]
  exact shiftLeft8_or_eq_add _ _ (EEPROM_readByte_lt mem _)

theorem storeLogData_effect (mem : Mem) (data : List Nat)
    (h22 : EEPROM_readByte mem 22 = 0) :
    (∀ a, a < 64 * (1 + EEPROM_readByte mem 8) →
        EEPROM_readByte (EEPROM_storeLogData mem data) a = EEPROM_readByte mem a) ∧
    (∀ a, 64 * (1 + EEPROM_readByte mem 8) + data.length ≤ a →
        EEPROM_readByte (EEPROM_storeLogData mem data) a = EEPROM_readByte mem a) ∧
    (∀ k, k < data.length →
        EEPROM_readByte (EEPROM_storeLogData mem data)
            (64 * (1 + EEPROM_readByte mem 8) + k) = data.getD k 0 % 256) := by
  have hc : EEPROM_readByte mem 8 < 256 := EEPROM_readByte_lt mem 8
  have hp : EEPROM_retrieveLogPages mem = EEPROM_readByte mem 8 := by
    rw [retrieveLogPages_eq, h22]
    omega
  simp only [EEPROM_storeLogData, LOG_DATA_BASE_ADDR, SPI_EEPROM_PAGE_SIZE,
    SPI_EEPROM_SIZE_BYTE, hp]
  rw [Nat.mod_eq_of_lt (by omega), if_pos (by omega)]
  refine ⟨fun a ha => ?_, fun a ha => ?_, fun k hk => ?_⟩
  · exact EEPROM_readByte_writePage_lt _ _ _ _ (by omega)
  · exact EEPROM_readByte_writePage_ge _ _ _ _ (by omega)
  · rw [EEPROM_readByte_writePage, if_pos (by omega)]
    have hidx : 64 * (1 + EEPROM_readByte mem 8) + k - (64 + EEPROM_readByte mem 8 * 64) = k := by
      omega
    rw [hidx]

theorem incrementLogCounter_nominal (mem : Mem) (h22 : EEPROM_readByte mem 22 = 0) :
    EEPROM_readByte (EEPROM_incrementLogCounter mem) 8 =
      (EEPROM_readByte mem 8 + 1) % 256 ∧
    (∀ a, a ≠ 8 → a ≠ 9 →
        EEPROM_readByte (EEPROM_incrementLogCounter mem) a = EEPROM_readByte mem a) := by
  have hc : EEPROM_readByte mem 8 < 256 := EEPROM_readByte_lt mem 8
  have hp : EEPROM_retrieveLogPages mem = EEPROM_readByte mem 8 := by
    rw [retrieveLogPages_eq, h22]
    omega
  simp only [EEPROM_incrementLogCounter, SPI_EEPROM_PAGE_COUNT, CTRL_REG_LOG_PAGES_LOW, hp]
  rw [if_pos (by omega)]
  constructor
  · rw [EEPROM_readByte_writePage, if_pos (by simp)]
    simp only [Nat.sub_self, List.getD_cons_zero]
    rw [and_255_eq_mod]
    omega
  · intro a ha8 ha9
    rw [EEPROM_readByte_writePage, if_neg (by simp; omega)]

theorem storeLogMessage_step (mem : Mem) (msg : log_t)
    (h22 : EEPROM_readByte mem 22 = 0) (hlen : (LOG_unpackMessage msg).length = 64) :
    EEPROM_readByte (EEPROM_storeLogMessage mem msg) 22 = 0 ∧
    EEPROM_readByte (EEPROM_storeLogMessage mem msg) 8 =
      (EEPROM_readByte mem 8 + 1) % 256 ∧
    (∀ a, a < 8 →
        EEPROM_readByte (EEPROM_storeLogMessage mem msg) a = EEPROM_readByte mem a) ∧
    (∀ a, 10 ≤ a → a < 64 * (1 + EEPROM_readByte mem 8) →
        EEPROM_readByte (EEPROM_storeLogMessage mem msg) a = EEPROM_readByte mem a) ∧
    (∀ a, 64 * (2 + EEPROM_readByte mem 8) ≤ a →
        EEPROM_readByte (EEPROM_storeLogMessage mem msg) a = EEPROM_readByte mem a) ∧
    (∀ k, k < 64 →
        EEPROM_readByte (EEPROM_storeLogMessage mem msg)
            (64 * (1 + EEPROM_readByte mem 8) + k)
          = (LOG_unpackMessage msg).getD k 0 % 256) := by
  obtain ⟨hLo, hHi, hWr⟩ := storeLogData_effect mem (LOG_unpackMessage msg) h22
  have hmid22 : EEPROM_readByte (EEPROM_storeLogData mem (LOG_unpackMessage msg)) 22 = 0 := by
    rw [hLo 22 (by omega)]
    exact h22
  have hmid8 : EEPROM_readByte (EEPROM_storeLogData mem (LOG_unpackMessage msg)) 8 =
      EEPROM_readByte mem 8 := hLo 8 (by omega)
  obtain ⟨hInc8, hIncOther⟩ :=
    incrementLogCounter_nominal (EEPROM_storeLogData mem (LOG_unpackMessage msg)) hmid22
  simp only [EEPROM_storeLogMessage]
  refine ⟨?_, ?_, ?_, ?_, ?_, ?_⟩
  · rw [hIncOther 22 (by omega) (by omega)]
    exact hmid22
  · rw [hInc8, hmid8]
  · intro a ha
    rw [hIncOther a (by omega) (by omega), hLo a (by omega)]
  · intro a ha1 ha2
    rw [hIncOther a (by omega) (by omega), hLo a (by omega)]
  · intro a ha
    rw [hIncOther a (by omega) (by omega), hHi a (by omega)]
  · intro k hk
    rw [hIncOther _ (by omega) (by omega), hWr k (by omega)]

theorem IMU_getPayload_length (queue : List Nat) (hq : queue.length = 288) (i : Nat) :
    (IMU_getPayload queue i).length = 60 := by
  unfold IMU_getPayload
  dsimp only
  split <;> simp [hq] <;> omega

theorem LOG_createMessage_data_length (logID intReg time : Nat) (p : List Nat)
    (h : p.length = 60) :
    (LOG_createMessage logID intReg time p).data.length = 60 := by
  simp [LOG_createMessage, LOG_MESSAGE_DATA_BYTE, h]

theorem LOG_unpackMessage_length (msg : log_t) (h : msg.data.length = 60) :
    (LOG_unpackMessage msg).length = 64 := by
  simp [LOG_unpackMessage, LOG_MESSAGE_DATA_BYTE, h]

theorem mainEvent_counter (mem : Mem) (int_reg ts : Nat) (queue : List Nat)
    (hq : queue.length = 288) (h22 : EEPROM_readByte mem 22 = 0) :
    EEPROM_readByte (mainOverThresholdEvent mem int_reg ts queue) 22 = 0 ∧
    EEPROM_readByte (mainOverThresholdEvent mem int_reg ts queue) 8 =
      (EEPROM_readByte mem 8 + 5) % 256 := by
  have hlen : ∀ m' i, (LOG_unpackMessage (LOG_createMessage
      (EEPROM_retrieveLogCount m') int_reg ts (IMU_getPayload queue i))).length = 64 :=
    fun m' i => LOG_unpackMessage_length _
      (LOG_createMessage_data_length _ _ _ _ (IMU_getPayload_length queue hq i))
  have hc : EEPROM_readByte mem 8 < 256 := EEPROM_readByte_lt mem 8
  simp only [mainOverThresholdEvent, LOG_PAGES_PER_EVENT]
  have h5 : List.range 5 = [0, 1, 2, 3, 4] := rfl
  rw [h5]
  simp only [List.foldl_cons, List.foldl_nil]
  obtain ⟨a22, a8, -, -, -, -⟩ := storeLogMessage_step mem _ h22 (hlen mem 0)
  obtain ⟨b22, b8, -, -, -, -⟩ := storeLogMessage_step _ _ a22 (hlen mem 1)
  obtain ⟨c22, c8, -, -, -, -⟩ := storeLogMessage_step _ _ b22 (hlen mem 2)
  obtain ⟨d22, d8, -, -, -, -⟩ := storeLogMessage_step _ _ c22 (hlen mem 3)
  obtain ⟨e22, e8, -, -, -, -⟩ := storeLogMessage_step _ _ d22 (hlen mem 4)
  refine ⟨e22, ?_⟩
  rw [e8, d8, c8, b8, a8]
  omega

theorem runEvents_counter (mem : Mem) (int_reg ts : Nat) (queue : List Nat)
    (hq : queue.length = 288) (h22 : EEPROM_readByte mem 22 = 0) (n : Nat) :
    EEPROM_readByte (runOverThresholdEvents mem int_reg ts queue n) 22 = 0 ∧
    EEPROM_readByte (runOverThresholdEvents mem int_reg ts queue n) 8 =
      (EEPROM_readByte mem 8 + 5 * n) % 256 := by
  have hc : EEPROM_readByte mem 8 < 256 := EEPROM_readByte_lt mem 8
  induction n with
  | zero =>
    refine ⟨h22, ?_⟩
    simp only [runOverThresholdEvents]
    omega
  | succ n ih =>
    obtain ⟨i22, i8⟩ := ih
    obtain ⟨s22, s8⟩ := mainEvent_counter _ int_reg ts queue hq i22
    refine ⟨s22, ?_⟩
    simp only [runOverThresholdEvents] at s8 ⊢
    rw [s8, i8]
    omega

/-! ## C2: log count consistency fails at the 256-page counter wrap -/

/-- C2 (failing evaluation): starting from the fully erased store, after 52
successful appends (260 pages, ids 0..51, no exhaustion, no id wraparound)
`logCount()` returns 0, not 52: the counter's high byte is written at address
0x0009 but read back from 0x0016, so the read-back page counter wraps at 256
pages. -/
theorem C2_log_count_diverges_after_52_appends :
    EEPROM_retrieveLogCount
        (runOverThresholdEvents zeroMem 7 9 (List.replicate 288 3) 52) = 0 ∧
    EEPROM_retrieveLogCount
        (runOverThresholdEvents zeroMem 7 9 (List.replicate 288 3) 52) ≠ 52 := by
  obtain ⟨h22f, h8f⟩ :=
    runEvents_counter zeroMem 7 9 (List.replicate 288 3) (by rw [List.length_replicate]) rfl 52
  have hz : EEPROM_readByte zeroMem 8 = 0 := rfl
  rw [hz] at h8f
  norm_num at h8f
  have hp : EEPROM_retrieveLogPages
      (runOverThresholdEvents zeroMem 7 9 (List.replicate 288 3) 52) = 4 := by
    rw [retrieveLogPages_eq, h22f, h8f]
  simp only [EEPROM_retrieveLogCount, LOG_PAGES_PER_EVENT, hp]
  norm_num

/-! ## C9: the page counter read-back and its 512 bound -/

set_option maxRecDepth 10000 in
/-- Counterexample to C9 as stated: at a store whose counter reads 255
(strictly below 512), `EEPROM_incrementLogCounter` does not increment the
read-back counter to 256 — it wraps it to 0, because the high byte is written
at address 0x0009 but read back from 0x0016. -/
theorem C9_counterexample :
    EEPROM_retrieveLogPages (fun a => if a = 8 then 255 else 0) = 255 ∧
    (255 : Nat) < SPI_EEPROM_PAGE_COUNT ∧
    EEPROM_retrieveLogPages
        (EEPROM_incrementLogCounter (fun a => if a = 8 then 255 else 0)) = 0 ∧
    EEPROM_retrieveLogPages
        (EEPROM_incrementLogCounter (fun a => if a = 8 then 255 else 0)) ≠ 256 := by
  decide

theorem incrementLogCounter_effect_general (mem : Mem)
    (hlt : EEPROM_retrieveLogPages mem < 512) :
    EEPROM_readByte (EEPROM_incrementLogCounter mem) 8 =
      (EEPROM_retrieveLogPages mem + 1) % 256 ∧
    (∀ a, a ≠ 8 → a ≠ 9 →
        EEPROM_readByte (EEPROM_incrementLogCounter mem) a = EEPROM_readByte mem a) := by
  simp only [EEPROM_incrementLogCounter, SPI_EEPROM_PAGE_COUNT, CTRL_REG_LOG_PAGES_LOW]
  rw [if_pos hlt]
  constructor
  · rw [EEPROM_readByte_writePage, if_pos (by simp)]
    simp only [Nat.sub_self, List.getD_cons_zero]
    rw [and_255_eq_mod]
    omega
  · intro a h8 h9
    rw [EEPROM_readByte_writePage, if_neg (by simp; omega)]

theorem incrementLogCounter_pages_le (mem : Mem)
    (h : EEPROM_retrieveLogPages mem ≤ 512) :
    EEPROM_retrieveLogPages (EEPROM_incrementLogCounter mem) ≤ 512 := by
  have h22 : EEPROM_readByte mem 22 < 256 := EEPROM_readByte_lt mem 22
  have h8 : EEPROM_readByte mem 8 < 256 := EEPROM_readByte_lt mem 8
  have heq := retrieveLogPages_eq mem
  by_cases hlt : EEPROM_retrieveLogPages mem < 512
  · obtain ⟨h8l, hoth⟩ := incrementLogCounter_effect_general mem hlt
    rw [retrieveLogPages_eq, hoth 22 (by omega) (by omega), h8l]
    omega
  · have hterm : EEPROM_incrementLogCounter mem = mem := by
      simp only [EEPROM_incrementLogCounter, SPI_EEPROM_PAGE_COUNT]
      rw [if_neg hlt]
    rw [hterm]
    exact h

theorem storeLogData_pages_eq (mem : Mem) (data : List Nat)
    (h : EEPROM_retrieveLogPages mem ≤ 512) :
    EEPROM_retrieveLogPages (EEPROM_storeLogData mem data) =
      EEPROM_retrieveLogPages mem := by
  simp only [EEPROM_storeLogData, LOG_DATA_BASE_ADDR, SPI_EEPROM_PAGE_SIZE,
    SPI_EEPROM_SIZE_BYTE]
  rw [Nat.mod_eq_of_lt (by omega)]
  split
  · rw [retrieveLogPages_eq, retrieveLogPages_eq,
      EEPROM_readByte_writePage_lt _ _ _ _ (by omega),
      EEPROM_readByte_writePage_lt _ _ _ _ (by omega)]
  · rfl

/-- C9 (amended): the read-back page counter stays at or below 512 across
`EEPROM_incrementLogCounter` and across a whole `EEPROM_storeLogMessage`;
the increment-below-512 guard is real, but when the counter's low byte is
255 the read-back wraps modulo 256 instead of incrementing (high byte
written at 0x0009, read from 0x0016), so "increments while below 512" holds
only up to that wrap. -/
theorem C9_pages_bound_preserved (mem : Mem) (msg : log_t)
    (h : EEPROM_retrieveLogPages mem ≤ 512) :
    EEPROM_retrieveLogPages (EEPROM_incrementLogCounter mem) ≤ 512 ∧
    EEPROM_retrieveLogPages (EEPROM_storeLogMessage mem msg) ≤ 512 ∧
    (512 ≤ EEPROM_retrieveLogPages mem → EEPROM_incrementLogCounter mem = mem) ∧
    (EEPROM_retrieveLogPages mem < 512 →
      EEPROM_retrieveLogPages (EEPROM_incrementLogCounter mem) =
        256 * EEPROM_readByte mem 22 + (EEPROM_retrieveLogPages mem + 1) % 256) := by
  refine ⟨incrementLogCounter_pages_le mem h, ?_, ?_, ?_⟩
  · simp only [EEPROM_storeLogMessage]
    refine incrementLogCounter_pages_le _ ?_
    rw [storeLogData_pages_eq mem _ h]
    exact h
  · intro h5
    simp only [EEPROM_incrementLogCounter, SPI_EEPROM_PAGE_COUNT]
    rw [if_neg (by omega)]
  · intro hlt
    obtain ⟨h8l, hoth⟩ := incrementLogCounter_effect_general mem hlt
    rw [retrieveLogPages_eq, hoth 22 (by omega) (by omega), h8l]

/-- Witness for C9 at the erased store. -/
theorem C9_witness :
    EEPROM_retrieveLogPages zeroMem ≤ 512 ∧
    EEPROM_retrieveLogPages (EEPROM_incrementLogCounter zeroMem) ≤ 512 ∧
    EEPROM_retrieveLogPages
        (EEPROM_storeLogMessage zeroMem
          { logID := 1, intReg := 2, timestamp := 3, data := List.replicate 60 4 }) ≤ 512 :=
  ⟨by decide,
   (C9_pages_bound_preserved zeroMem
     { logID := 1, intReg := 2, timestamp := 3, data := List.replicate 60 4 } (by decide)).1,
   (C9_pages_bound_preserved zeroMem
     { logID := 1, intReg := 2, timestamp := 3, data := List.replicate 60 4 } (by decide)).2.1⟩

/-! ## C3: appendLog is per-page, not atomic -/

/-- C3 (amended): the append is per-page rather than atomic.  In the nominal
counting regime (high counter register byte at 0x0016 reads 0 and the low
counter byte is at most 250), one over-threshold append writes exactly the 5
consecutive pages starting at page `1 + counter` — each carrying the log
identifier in its header byte — increments the counter read-back by exactly
5, and leaves every other data byte unchanged.  Outside that regime the five
page writes are skipped individually by the address guard while the counter
keeps advancing (or wraps), so the store can change under exhaustion and a
partial log can be written. -/
theorem C3_append_per_page_behavior (mem : Mem) (int_reg ts : Nat) (queue : List Nat)
    (hq : queue.length = 288) (h22 : EEPROM_readByte mem 22 = 0)
    (h8 : EEPROM_readByte mem 8 ≤ 250) :
    EEPROM_retrieveLogPages (mainOverThresholdEvent mem int_reg ts queue) =
      EEPROM_retrieveLogPages mem + 5 ∧
    (∀ i, i < 5 →
        EEPROM_readByte (mainOverThresholdEvent mem int_reg ts queue)
            (64 * (1 + EEPROM_readByte mem 8 + i)) = EEPROM_retrieveLogCount mem) ∧
    (∀ a, a < 8 → EEPROM_readByte (mainOverThresholdEvent mem int_reg ts queue) a
        = EEPROM_readByte mem a) ∧
    (∀ a, 10 ≤ a → a < 64 * (1 + EEPROM_readByte mem 8) →
        EEPROM_readByte (mainOverThresholdEvent mem int_reg ts queue) a
          = EEPROM_readByte mem a) ∧
    (∀ a, 64 * (6 + EEPROM_readByte mem 8) ≤ a →
        EEPROM_readByte (mainOverThresholdEvent mem int_reg ts queue) a
          = EEPROM_readByte mem a) := by
  have hlen : ∀ m' i, (LOG_unpackMessage (LOG_createMessage
      (EEPROM_retrieveLogCount m') int_reg ts (IMU_getPayload queue i))).length = 64 :=
    fun m' i => LOG_unpackMessage_length _
      (LOG_createMessage_data_length _ _ _ _ (IMU_getPayload_length queue hq i))
  have hc : EEPROM_readByte mem 8 < 256 := EEPROM_readByte_lt mem 8
  simp only [mainOverThresholdEvent, LOG_PAGES_PER_EVENT]
  have h5 : List.range 5 = [0, 1, 2, 3, 4] := rfl
  rw [h5]
  simp only [List.foldl_cons, List.foldl_nil]
  obtain ⟨a22, a8, aLow, aMid, aHi, aWr⟩ := storeLogMessage_step mem _ h22 (hlen mem 0)
  rw [Nat.mod_eq_of_lt (by omega)] at a8
  obtain ⟨b22, b8, bLow, bMid, bHi, bWr⟩ := storeLogMessage_step _ _ a22 (hlen mem 1)
  rw [a8] at b8 bMid bHi bWr
  rw [Nat.mod_eq_of_lt (by omega)] at b8
  obtain ⟨c22, c8, cLow, cMid, cHi, cWr⟩ := storeLogMessage_step _ _ b22 (hlen mem 2)
  rw [b8] at c8 cMid cHi cWr
  rw [Nat.mod_eq_of_lt (by omega)] at c8
  obtain ⟨d22, d8, dLow, dMid, dHi, dWr⟩ := storeLogMessage_step _ _ c22 (hlen mem 3)
  rw [c8] at d8 dMid dHi dWr
  rw [Nat.mod_eq_of_lt (by omega)] at d8
  obtain ⟨e22, e8, eLow, eMid, eHi, eWr⟩ := storeLogMessage_step _ _ d22 (hlen mem 4)
  rw [d8] at e8 eMid eHi eWr
  rw [Nat.mod_eq_of_lt (by omega)] at e8
  refine ⟨?_, ?_, ?_, ?_, ?_⟩
  · rw [retrieveLogPages_eq, retrieveLogPages_eq, h22, e22, e8]
    omega
  · intro i hi
    have hval : ∀ j : Nat, (LOG_unpackMessage (LOG_createMessage
        (EEPROM_retrieveLogCount mem) int_reg ts (IMU_getPayload queue j))).getD 0 0 % 256
          = EEPROM_retrieveLogCount mem := by
      intro j
      simp only [LOG_unpackMessage, LOG_createMessage, List.cons_append,
        List.getD_cons_zero, EEPROM_retrieveLogCount]
      omega
    interval_cases i
    · have hpos : 64 * (1 + EEPROM_readByte mem 8 + 0)
          = 64 * (1 + EEPROM_readByte mem 8) + 0 := by ring
      rw [hpos, eMid _ (by omega) (by omega), dMid _ (by omega) (by omega),
        cMid _ (by omega) (by omega), bMid _ (by omega) (by omega), aWr 0 (by omega),
        hval 0]
    · have hpos : 64 * (1 + EEPROM_readByte mem 8 + 1)
          = 64 * (1 + (EEPROM_readByte mem 8 + 1)) + 0 := by ring
      rw [hpos, eMid _ (by omega) (by omega), dMid _ (by omega) (by omega),
        cMid _ (by omega) (by omega), bWr 0 (by omega), hval 1]
    · have hpos : 64 * (1 + EEPROM_readByte mem 8 + 2)
          = 64 * (1 + (EEPROM_readByte mem 8 + 2)) + 0 := by ring
      rw [hpos, eMid _ (by omega) (by omega), dMid _ (by omega) (by omega),
        cWr 0 (by omega), hval 2]
    · have hpos : 64 * (1 + EEPROM_readByte mem 8 + 3)
          = 64 * (1 + (EEPROM_readByte mem 8 + 3)) + 0 := by ring
      rw [hpos, eMid _ (by omega) (by omega), dWr 0 (by omega), hval 3]
    · have hpos : 64 * (1 + EEPROM_readByte mem 8 + 4)
          = 64 * (1 + (EEPROM_readByte mem 8 + 4)) + 0 := by ring
      rw [hpos, eWr 0 (by omega), hval 4]
  · intro a ha
    rw [eLow a ha, dLow a ha, cLow a ha, bLow a ha, aLow a ha]
  · intro a h10 hlt
    rw [eMid a (by omega) (by omega), dMid a (by omega) (by omega),
      cMid a (by omega) (by omega), bMid a (by omega) (by omega),
      aMid a (by omega) (by omega)]
  · intro a ha
    rw [eHi a (by omega), dHi a (by omega), cHi a (by omega), bHi a (by omega),
      aHi a (by omega)]

set_option maxRecDepth 1000000 in
/-- Counterexample to C3 as stated: at a store whose page counter reads 254,
all five pages of the next log (pages 255..259) still fit below the capacity
guard, so per the claim the append must write exactly 5 consecutive pages
and increment the counter by exactly 5 — but after the append the counter
reads 3 (the read-back wrapped at 256) and the page at address 64 (page 1,
far outside the expected range) was overwritten with the log header. -/
theorem C3_counterexample :
    EEPROM_retrieveLogPages (fun a => if a = 8 then 254 else 0) = 254 ∧
    LOG_DATA_BASE_ADDR + (254 + 4) * SPI_EEPROM_PAGE_SIZE
        ≤ SPI_EEPROM_SIZE_BYTE - SPI_EEPROM_PAGE_SIZE ∧
    EEPROM_retrieveLogPages
        (mainOverThresholdEvent (fun a => if a = 8 then 254 else 0) 0 0
          (List.replicate 288 0)) = 3 ∧
    EEPROM_retrieveLogPages
        (mainOverThresholdEvent (fun a => if a = 8 then 254 else 0) 0 0
          (List.replicate 288 0)) ≠ 254 + 5 ∧
    EEPROM_readByte
        (mainOverThresholdEvent (fun a => if a = 8 then 254 else 0) 0 0
          (List.replicate 288 0)) 64 = 50 ∧
    EEPROM_readByte (fun a => if a = 8 then 254 else 0) 64 = 0 := by
  decide

/-- Witness for C3 (amended) at the erased store. -/
theorem C3_witness :
    ((List.replicate 288 0 : List Nat).length = 288 ∧
      EEPROM_readByte zeroMem 22 = 0 ∧ EEPROM_readByte zeroMem 8 ≤ 250) ∧
    EEPROM_retrieveLogPages
        (mainOverThresholdEvent zeroMem 7 9 (List.replicate 288 0)) =
      EEPROM_retrieveLogPages zeroMem + 5 :=
  ⟨⟨by rw [List.length_replicate], rfl, by decide⟩,
   (C3_append_per_page_behavior zeroMem 7 9 (List.replicate 288 0)
     (by rw [List.length_replicate]) rfl (by decide)).1⟩

/-! ## C4: eraseAll misses the last page -/

theorem getD_replicate_zero (n k : Nat) : (List.replicate n (0 : Nat)).getD k 0 = 0 := by
  induction n generalizing k with
  | zero => simp
  | succ n ih =>
    cases k with
    | zero => simp [List.replicate_succ]
    | succ k => simp [List.replicate_succ, ih]

theorem resetLoop_readByte (mem : Mem) (n a : Nat) :
    EEPROM_readByte ((List.range n).foldl
        (fun m i => EEPROM_writePage m (i * 64) (List.replicate 64 0)) mem) a =
      if a < 64 * n then 0 else EEPROM_readByte mem a := by
  induction n with
  | zero => simp
  | succ n ih =>
    rw [List.range_succ, List.foldl_append, List.foldl_cons, List.foldl_nil,
      EEPROM_readByte_writePage]
    simp only [List.length_replicate]
    by_cases hin : n * 64 ≤ a ∧ a < n * 64 + 64
    · rw [if_pos hin, getD_replicate_zero, Nat.zero_mod, if_pos (by omega)]
    · rw [if_neg hin, ih]
      by_cases h2 : a < 64 * n
      · rw [if_pos h2, if_pos (by omega)]
      · rw [if_neg h2, if_neg (by omega)]

theorem saveResetFlag_one_eq (m : Mem) :
    EEPROM_saveResetFlag m 1 = EEPROM_writeByte m 0 ((EEPROM_readByte m 0) ||| 8) := by
  simp only [EEPROM_saveResetFlag, CTRL_REG_PSOC_STATUS, CTRL_REG_PSOC_SET_RESET_FLAG,
    CTRL_REG_PSOC_RESET_FLAG_SHIFT, if_pos rfl]
  rw [(by decide : (1 <<< 3 : Nat) = 8)]
  simp

/-- C4 (failing evaluation): `EEPROM_resetMemory` zeroes only pages 0..510
(the loop runs `i = 1` to 511), so a store whose page 511 holds a nonzero
byte (address 32704 = 0x7FC0 reads 170) keeps that byte after the reset,
while the claim says every data page of the 512-page store reads all-zero;
the log count does read 0 and the reset marker does read 1. -/
theorem C4_reset_misses_page_511 :
    EEPROM_readByte (EEPROM_resetMemory (fun a => if a = 32704 then 170 else 0)) 32704
      = 170 ∧
    (170 : Nat) ≠ 0 ∧
    EEPROM_retrieveLogCount
        (EEPROM_resetMemory (fun a => if a = 32704 then 170 else 0)) = 0 ∧
    EEPROM_retrieveResetFlag
        (EEPROM_resetMemory (fun a => if a = 32704 then 170 else 0)) = 1 := by
  have hredef : EEPROM_resetMemory (fun a => if a = 32704 then 170 else 0) =
      EEPROM_saveResetFlag ((List.range 511).foldl
        (fun m i => EEPROM_writePage m (i * 64) (List.replicate 64 0))
        (fun a => if a = 32704 then 170 else 0)) 1 := by
    simp only [EEPROM_resetMemory, SPI_EEPROM_PAGE_COUNT, SPI_EEPROM_PAGE_SIZE]
  rw [hredef, saveResetFlag_one_eq]
  have hloop := resetLoop_readByte (fun a => if a = 32704 then 170 else 0) 511
  have h0 : EEPROM_readByte ((List.range 511).foldl
      (fun m i => EEPROM_writePage m (i * 64) (List.replicate 64 0))
      (fun a => if a = 32704 then 170 else 0)) 0 = 0 := by
    rw [hloop 0, if_pos (by omega)]
  refine ⟨?_, by omega, ?_, ?_⟩
  · rw [EEPROM_readByte_writeByte, if_neg (by omega), hloop 32704, if_neg (by omega)]
    decide
  · simp only [EEPROM_retrieveLogCount, EEPROM_retrieveLogPages,
      CTRL_REG_LOG_PAGES_HIGH, CTRL_REG_LOG_PAGES_LOW, LOG_PAGES_PER_EVENT]
    rw [EEPROM_readByte_writeByte, if_neg (by omega), EEPROM_readByte_writeByte,
      if_neg (by omega), hloop 22, if_pos (by omega), hloop 8, if_pos (by omega)]
    decide
  · simp only [EEPROM_retrieveResetFlag, CTRL_REG_PSOC_STATUS,
      CTRL_REG_PSOC_SET_RESET_FLAG, CTRL_REG_PSOC_RESET_FLAG_SHIFT]
    rw [EEPROM_readByte_writeByte, if_pos rfl, h0]
    decide

/-! ## C7: history buffer order and slicing -/

theorem sendLog_record_length (mem : Mem) (log_id i : Nat) :
    (LOG_sendData (EEPROM_retrieveLogMessage mem log_id i)).length = 64 := by
  unfold LOG_sendData EEPROM_retrieveLogMessage
  refine LOG_unpackMessage_length _ ?_
  simp [LOG_packMessage, EEPROM_retrieveLogData, EEPROM_readPage,
    LOG_MESSAGE_HEADER_BYTE, LOG_MESSAGE_DATA_BYTE, SPI_EEPROM_PAGE_SIZE]

set_option maxRecDepth 1000000 in
/-- C5 (failing evaluation): on the fully erased store the lookup for
identifier 99 does return the NOT_FOUND sentinel 0xFFFF, but the remote
READ_LOG handler does not treat this as "send nothing": it always transmits
5 full 64-byte records (320 bytes) — on this store decoded from wrapped
addresses derived from the sentinel — for every store state and identifier. -/
theorem C5_not_found_still_transmits :
    EEPROM_findLogID zeroMem 99 = 0xFFFF ∧
    (CUSTOM_ISR_RX_sendLogID zeroMem 99).length = 320 ∧
    (CUSTOM_ISR_RX_sendLogID zeroMem 99).length ≠ 0 ∧
    ∀ (mem : Mem) (log_id : Nat), (CUSTOM_ISR_RX_sendLogID mem log_id).length = 320 := by
  have hall : ∀ (mem : Mem) (log_id : Nat),
      (CUSTOM_ISR_RX_sendLogID mem log_id).length = 320 := by
    intro mem log_id
    have h5 : List.range 5 = [0, 1, 2, 3, 4] := rfl
    simp only [CUSTOM_ISR_RX_sendLogID, LOG_PAGES_PER_EVENT, h5, List.foldl_cons,
      List.foldl_nil, List.length_append, List.length_nil]
    rw [sendLog_record_length, sendLog_record_length, sendLog_record_length,
      sendLog_record_length, sendLog_record_length]
  refine ⟨by decide, hall zeroMem 99, ?_, hall⟩
  rw [hall zeroMem 99]
  omega
